import Mathlib

set_option autoImplicit false

/-!
Shallow embedding of the document-QA pipeline (ingestion, classification,
retrieval, synthesis) and proofs about its contracts.

Source files modelled here:
* `src/ingestion/services/processor.py`   (DocumentProcessor)
* `src/ingestion/services/classifier.py`  (DocumentClassifier)
* `src/ingestion/core/pipeline.py`        (IngestionPipeline)
* `src/agents/retrieval_agent.py`         (ChromaVectorClient, RetrievalAgent)
* `src/agents/synthesis_agent.py`         (SynthesisAgent)

External collaborators (the Bedrock generative/embedding models, the
`json.loads` decoder, DynamoDB, ChromaDB) are parameters of the embedded
functions: a model call is an `Except Unit String` (error = the call
raised), `json.loads` is a `String → Option JsonVal` argument, the DynamoDB
category table is an explicit `List CategoryItem` state, and vector-store
operations are per-call success flags.
-/

/-- Model of a decoded JSON / Python value (what `json.loads` returns and
what Python dictionaries in the pipeline hold). -/
inductive JsonVal where
  | null
  | bool (b : Bool)
  | num (n : Int)
  | str (s : String)
  | arr (xs : List JsonVal)
  | obj (fields : List (String × JsonVal))

/-- Python truthiness of a value (`if v:`). -/
def JsonVal.isTruthy : JsonVal → Bool
  | .null => false
  | .bool b => b
  | .num n => n != 0
  | .str s => s ≠ ""
  | .arr xs => !xs.isEmpty
  | .obj fs => !fs.isEmpty

/-- Python `v is None`. -/
def JsonVal.isNull : JsonVal → Bool
  | .null => true
  | _ => false

/-- A Python dictionary with string keys, modelled as an association list in
insertion order (keys unique by construction of every operation below). -/
abbrev Dict := List (String × JsonVal)

/-- Dict lookup, `d.get(k)`: `none` when the key is absent. -/
def dictGet : Dict → String → Option JsonVal
  | [], _ => none
  | (k', v) :: d, k => if k' = k then some v else dictGet d k

/-- `d.get(k)` used in a truthiness position: an absent key behaves as `None`. -/
def getOrNull (d : Dict) (k : String) : JsonVal :=
  (dictGet d k).getD JsonVal.null

/-- Dict assignment `d[k] = v`: overwrite in place keeping the key's position,
append when absent (Python 3.7+ insertion-order semantics). -/
def dictSet : Dict → String → JsonVal → Dict
  | [], k, v => [(k, v)]
  | (k', v') :: d, k, v => if k' = k then (k, v) :: d else (k', v') :: dictSet d k v

/-- `d.update(pairs)` (also `{**d, **pairs}`): assign each pair in order. -/
def dictUpdate (d : Dict) (pairs : List (String × JsonVal)) : Dict :=
  pairs.foldl (fun acc p => dictSet acc p.1 p.2) d

/-- The character `U+007B` (a left curly brace). -/
def lbrace : Char := Char.ofNat 123

/-- The character `U+007D` (a right curly brace). -/
def rbrace : Char := Char.ofNat 125

/-- A single-quote character as a string (used to spell out the literal
message strings of the source without bare quote characters). -/
def quoteChar : String := (Char.ofNat 39).toString

/-- Python `str.strip()` on a character list. -/
def stripChars (s : List Char) : List Char :=
  ((s.dropWhile Char.isWhitespace).reverse.dropWhile Char.isWhitespace).reverse

/-- Python `str.strip()`. -/
def pyStrip (s : String) : String :=
  ⟨stripChars s.data⟩

/-- Python `str.lower()`. -/
def pyLower (s : String) : String :=
  ⟨s.data.map Char.toLower⟩

/-- Clamp one Python slice index to `[0, len]`, resolving negative indices
relative to the end of the sequence. -/
def pySliceIdx (len : Nat) (i : Int) : Nat :=
  if i < 0 then (max 0 ((len : Int) + i)).toNat else min i.toNat len

/-- Python slice `s[i:j]` with full negative-index semantics. -/
def pySlice (s : List Char) (i j : Int) : List Char :=
  (s.take (pySliceIdx s.length j)).drop (pySliceIdx s.length i)

/-- Python `str.find(c)`: index of the first occurrence, `-1` when absent. -/
def pyFind (s : List Char) (c : Char) : Int :=
  match s.findIdx? (· == c) with
  | some i => (i : Int)
  | none => -1

/-- Python `str.rfind(c)`: index of the last occurrence, `-1` when absent. -/
def pyRfind (s : List Char) (c : Char) : Int :=
  match s.reverse.findIdx? (· == c) with
  | some i => (s.length : Int) - 1 - (i : Int)
  | none => -1

/-- State of a `DocumentProcessor` (processor.py line 12): the two sliding
window parameters stored by `__init__`. -/
structure DocumentProcessor where
  chunk_size : Nat
  chunk_overlap : Nat
  deriving DecidableEq

/-- `DocumentProcessor.__init__` (processor.py lines 12-15). The constructor
only stores its arguments; it never raises, so as an `Except` it is always
`ok` — there is no validation of `chunk_overlap < chunk_size`. -/
def DocumentProcessor.init (size overlap : Nat) : Except String DocumentProcessor :=
  Except.ok { chunk_size := size, chunk_overlap := overlap }

/-- The `while start < len(text)` loop of `DocumentProcessor._split_text`
(processor.py lines 45-54). `start` is a Python int (it can go negative when
`chunk_overlap > chunk_size`), slices use Python semantics, and the loop is
given explicit fuel: `none` means the fuel ran out, i.e. the loop was still
running after `fuel` iterations. -/
def splitTextLoop (size overlap : Nat) (text : List Char) :
    Int → List (List Char) → Nat → Option (List (List Char))
  | _, _, 0 => none
  | start, acc, fuel + 1 =>
    let e : Int := start + (size : Int)
    let chunk := stripChars (pySlice text start e)
    let acc' := if chunk.isEmpty then acc else acc ++ [chunk]
    if (text.length : Int) ≤ e then some acc'
    else splitTextLoop size overlap text (start + ((size : Int) - (overlap : Int))) acc' fuel

/-- `DocumentProcessor._split_text` (processor.py lines 38-56) with explicit
loop fuel. Empty text returns `[]` immediately; otherwise the window loop
starts at position `0` with no accumulated chunks. -/
def splitTextFuel (size overlap : Nat) (text : List Char) (fuel : Nat) :
    Option (List (List Char)) :=
  if text.isEmpty then some []
  else splitTextLoop size overlap text 0 [] fuel

/-- Under the precondition `overlap < size` every loop iteration advances
`start` by at least one, so fuel exceeding the remaining length suffices. -/
theorem splitTextLoop_isSome (size overlap : Nat) (h : overlap < size)
    (text : List Char) :
    ∀ (fuel : Nat) (start : Int) (acc : List (List Char)),
      start < (text.length : Int) → (text.length : Int) - start < (fuel : Int) →
      (splitTextLoop size overlap text start acc fuel).isSome := by
  intro fuel
  induction fuel with
  | zero =>
    intro start acc hs hf
    simp only [Nat.cast_zero] at hf
    omega
  | succ n ih =>
    intro start acc hs hf
    simp only [splitTextLoop]
    split
    · simp
    · rename_i hlt
      apply ih
      · omega
      · push_cast at hf ⊢
        omega

/-- With fuel `text.length + 1`, `_split_text` finishes whenever
`overlap < size`. -/
theorem splitTextFuel_terminates (size overlap : Nat) (h : overlap < size)
    (text : List Char) :
    (splitTextFuel size overlap text (text.length + 1)).isSome := by
  unfold splitTextFuel
  split
  · simp
  · rename_i hne
    apply splitTextLoop_isSome size overlap h text
    · have : text ≠ [] := by simpa [List.isEmpty_iff] using hne
      have : 0 < text.length := List.length_pos.mpr this
      omega
    · push_cast
      omega

/-- Substring containment, Python `needle in hay` for strings. -/
def substrCheck (needle hay : String) : Bool :=
  (List.range (hay.length + 1)).any
    (fun i => (hay.data.drop i).take needle.length == needle.data)

/-- Python `field in data` on a decoded JSON value: key membership for a
dict, element membership for a list, substring for a string; `none` models
the `TypeError` raised for the remaining types. -/
def jsonContains (data : JsonVal) (field : String) : Option Bool :=
  match data with
  | .obj fs => some (fs.any (fun p => p.1 == field))
  | .arr xs => some (xs.any (fun v => match v with | .str s => s == field | _ => false))
  | .str s => some (substrCheck field s)
  | _ => none

/-- The required classification fields (classifier.py lines 153 and 271). -/
def required_fields : List String :=
  ["category_id", "vector_collection_name", "description"]

/-- `all(field in data for field in required_fields)`: `none` models a raised
`TypeError` (whether `in` raises depends only on the type of `data`, so the
generator's short-circuiting cannot change the outcome). -/
def pyAllRequired (data : JsonVal) : Option Bool :=
  match jsonContains data "category_id", jsonContains data "vector_collection_name",
        jsonContains data "description" with
  | some a, some b, some c => some (a && b && c)
  | _, _, _ => none

/-- The field list of the default classification dict. -/
def default_classification_fields : Dict :=
  [("category_id", .str "general_documents"),
   ("vector_collection_name", .str "general_documents"),
   ("description", .str "General uncategorized documents"),
   ("keywords", .arr [.str "general"])]

/-- `DocumentClassifier._get_default_classification` (classifier.py
lines 286-293). -/
def default_classification : JsonVal :=
  .obj default_classification_fields

/-- The JSON-block extraction of `DocumentClassifier._parse_response`
(classifier.py lines 259-267): slice from the first left curly brace to one
past the last right curly brace; `none` when `start == -1 or end == 0`. -/
def extract_json_str (response : String) : Option String :=
  let s := response.data
  let start := pyFind s lbrace
  let e := pyRfind s rbrace + 1
  if start = -1 ∨ e = 0 then none else some ⟨pySlice s start e⟩

/-- `DocumentClassifier._parse_response` (classifier.py lines 256-284),
parameterised by the external `json.loads`. Every failure — no JSON block,
a `JSONDecodeError` from `loads`, a missing required field, or the
`TypeError` from testing membership on a non-container — lands in
`default_classification`. -/
def parse_response (loads : String → Option JsonVal) (response : String) : JsonVal :=
  match extract_json_str response with
  | none => default_classification
  | some json_str =>
    match loads json_str with
    | none => default_classification
    | some data =>
      match pyAllRequired data with
      | some true => data
      | _ => default_classification

/-- `DocumentClassifier._classify_with_llm` (classifier.py lines 140-162):
the Bedrock call is the `Except` argument (error = the call raised, which
the blanket `except` turns into the default classification); a successful
response is parsed and re-validated. -/
def classify_with_llm (loads : String → Option JsonVal)
    (bedrock : Except Unit String) : JsonVal :=
  match bedrock with
  | .error _ => default_classification
  | .ok response_text =>
    let classification := parse_response loads response_text
    match pyAllRequired classification with
    | some true => classification
    | _ => default_classification

/-- One item of the DynamoDB category table (classifier.py lines 108-114). -/
structure CategoryItem where
  category_id : String
  vector_collection_name : String
  description : String
  keywords : List String
  document_count : Nat
  deriving DecidableEq

/-- A classification result as used by `classify_document` once the three
required string fields are in hand. -/
structure Classification where
  category_id : String
  vector_collection_name : String
  description : String
  keywords : List String
  is_new : Bool
  deriving DecidableEq

/-- `DocumentClassifier._get_category` (classifier.py lines 96-103): a
`get_item` on the table state (keys are unique, so first match). -/
def get_category : List CategoryItem → String → Option CategoryItem
  | [], _ => none
  | it :: rest, id => if it.category_id = id then some it else get_category rest id

/-- `DocumentClassifier._create_category` (classifier.py lines 105-125):
conditional put (`attribute_not_exists(category_id)`); the
`ConditionalCheckFailedException` of a duplicate is swallowed and reported
as `false`. A fresh category starts with `document_count = 0`. -/
def create_category (table : List CategoryItem) (c : Classification) :
    Bool × List CategoryItem :=
  match get_category table c.category_id with
  | some _ => (false, table)
  | none => (true, table ++ [{ category_id := c.category_id,
                               vector_collection_name := c.vector_collection_name,
                               description := c.description,
                               keywords := c.keywords,
                               document_count := 0 }])

/-- `DocumentClassifier._increment_count` (classifier.py lines 127-138): the
atomic `ADD document_count :inc`. DynamoDB's `ADD` creates the item (key and
counter only) when it is absent. -/
def increment_count : List CategoryItem → String → List CategoryItem
  | [], id => [{ category_id := id, vector_collection_name := "",
                 description := "", keywords := [], document_count := 1 }]
  | it :: rest, id =>
    if it.category_id = id then
      { it with document_count := it.document_count + 1 } :: rest
    else it :: increment_count rest id

/-- The stored document count of a category (`0` when absent). -/
def doc_count (table : List CategoryItem) (id : String) : Nat :=
  match get_category table id with
  | some it => it.document_count
  | none => 0

/-- `DocumentClassifier.classify_document` (classifier.py lines 39-79) with
the LLM classification already resolved to `c` and the table as explicit
state: create-if-absent marking `is_new`, overwrite of description and
collection name from an existing record, and the final count increment. -/
def classify_document (c : Classification) (table : List CategoryItem) :
    Classification × List CategoryItem :=
  match get_category table c.category_id with
  | none =>
    let created := create_category table c
    ({ c with is_new := true }, increment_count created.2 c.category_id)
  | some existing =>
    ({ c with vector_collection_name := existing.vector_collection_name,
              description := existing.description,
              is_new := false },
     increment_count table c.category_id)

/-- Number of records in the table carrying a given id. -/
def countId (table : List CategoryItem) (id : String) : Nat :=
  (table.filter (fun it => decide (it.category_id = id))).length

/-- One candidate as returned by the ChromaDB `collection.query` call
(retrieval_agent.py lines 127-139): raw id, document text, metadata (Chroma
may return `None`) and distance. Distances and scores are modelled as
rationals. -/
structure RawCandidate where
  id : String
  document : String
  metadata : Option Dict
  distance : ℚ

/-- One processed retrieval result (retrieval_agent.py lines 162-168). -/
structure SearchResult where
  text : String
  source_uri : JsonVal
  chunk_id : JsonVal
  relevance_score : ℚ
  metadata : Dict

/-- Python `a or b`: the first operand when it is truthy, otherwise `b`. -/
def pyOr (a b : JsonVal) : JsonVal :=
  if a.isTruthy then a else b

/-- The `source_uri` alias chain of `ChromaVectorClient.search`
(retrieval_agent.py lines 145-152): `source_uri`, `source`, `file_path`,
`filename`, `document_id`, then the literal `"N/A"`. -/
def resolve_source_uri (metadata : Dict) : JsonVal :=
  pyOr (getOrNull metadata "source_uri")
    (pyOr (getOrNull metadata "source")
      (pyOr (getOrNull metadata "file_path")
        (pyOr (getOrNull metadata "filename")
          (pyOr (getOrNull metadata "document_id") (JsonVal.str "N/A")))))

/-- The `chunk_id` alias chain of `ChromaVectorClient.search`
(retrieval_agent.py lines 154-160): `chunk_id`, `chunk_index`,
`page_number`, `section_id`, then the raw result id. -/
def resolve_chunk_id (metadata : Dict) (rawId : JsonVal) : JsonVal :=
  pyOr (getOrNull metadata "chunk_id")
    (pyOr (getOrNull metadata "chunk_index")
      (pyOr (getOrNull metadata "page_number")
        (pyOr (getOrNull metadata "section_id") rawId)))

/-- Processing of one candidate inside the result loop of
`ChromaVectorClient.search` (retrieval_agent.py lines 138-168):
`metadata or {}`, `relevance_score = 1 - distance`, and the two alias
resolutions. -/
def process_candidate (c : RawCandidate) : SearchResult :=
  let metadata := c.metadata.getD []
  { text := c.document
    source_uri := resolve_source_uri metadata
    chunk_id := resolve_chunk_id metadata (JsonVal.str c.id)
    relevance_score := 1 - c.distance
    metadata := metadata }

/-- The relevance threshold applied by `RetrievalAgent.invoke`
(retrieval_agent.py line 222). -/
def relevance_threshold : ℚ := 3 / 10

/-- The threshold filter of `RetrievalAgent.invoke` (retrieval_agent.py
line 225): keep the results whose `relevance_score` is at least the
threshold, in their original order. -/
def filter_by_relevance (results : List SearchResult) : List SearchResult :=
  results.filter (fun r => relevance_threshold ≤ r.relevance_score)

/-- The decoded `context_data` dict consumed by `SynthesisAgent.invoke`
(synthesis_agent.py lines 34-37 and 50-81). Absent keys are `JsonVal.null`
(`dict.get` default) for scalar fields and `[]` for list fields. -/
structure SynthContextData where
  retrieved_texts : List String
  source_metadata : List Dict
  routing_category : JsonVal
  routing_map : List (String × Dict)
  classification_result : JsonVal

/-- The fixed empty-retrieval answer (synthesis_agent.py line 58). -/
def no_relevant_msg (query : String) : String :=
  "No relevant documents found for " ++ quoteChar ++ query ++ quoteChar ++ "."

/-- The fixed greeting set of `SynthesisAgent._is_greeting`
(synthesis_agent.py lines 83-85). -/
def greeting_set : List String :=
  ["hi", "hello", "hey", "good morning", "good evening", "good afternoon"]

/-- `SynthesisAgent._is_greeting`: case- and space-normalised membership in
the fixed greeting set. -/
def is_greeting (query : String) : Bool :=
  greeting_set.contains (pyLower (pyStrip query))

/-- Python `str()` of a metadata value as it appears inside the formatted
message strings; containers are abbreviated (no claim depends on their
rendering). -/
def pyStr : JsonVal → String
  | .str s => s
  | .num n => toString n
  | .bool true => "True"
  | .bool false => "False"
  | .null => "None"
  | .arr _ => "[...]"
  | .obj _ => "\x7b...\x7d"

/-- `SynthesisAgent._invoke_bedrock_llm` (synthesis_agent.py lines 171-208):
returns `(final_answer, citations)` and a flag recording that the generative
model was invoked. The dual-path parse extracts an `answer` field from a
balanced JSON object when present; a `JSONDecodeError` falls back to the raw
text; the `AttributeError` of `.get` on a non-dict JSON value reaches the
outer handler, which answers "Answer generation failed." with no citations,
as does a raised model call (`Except.error`). -/
def invoke_bedrock_llm (bedrock : Except Unit String)
    (loads : String → Option JsonVal) (source_metadata : List Dict) :
    (JsonVal × JsonVal) × Bool :=
  match bedrock with
  | .error _ => ((JsonVal.str "Answer generation failed.", JsonVal.arr []), true)
  | .ok raw =>
    let text := pyStrip raw
    let citations := JsonVal.arr (source_metadata.map JsonVal.obj)
    let js := text.data
    let json_start := pyFind js lbrace
    let json_end := pyRfind js rbrace + 1
    if json_start ≠ -1 ∧ json_start < json_end then
      match loads ⟨pySlice js json_start json_end⟩ with
      | none => ((JsonVal.str text, citations), true)
      | some llm_result =>
        match llm_result with
        | .obj fs => (((dictGet fs "answer").getD (JsonVal.str text), citations), true)
        | _ => ((JsonVal.str "Answer generation failed.", JsonVal.arr []), true)
    else ((JsonVal.str text, citations), true)

/-- `SynthesisAgent._handle_retrieval_response` (synthesis_agent.py
lines 50-70): the canned no-relevant-documents reply for an empty
`retrieved_texts`, otherwise prompt generation plus the model call. The
`Bool` records whether the generative model was invoked. -/
def handle_retrieval_response (bedrock : Except Unit String)
    (loads : String → Option JsonVal) (query : String) (cd : SynthContextData) :
    Dict × Bool :=
  if cd.retrieved_texts.isEmpty then
    ([("status", .str "COMPLETED"),
      ("final_answer", .str (no_relevant_msg query)),
      ("citations", .arr [])], false)
  else
    let r := invoke_bedrock_llm bedrock loads cd.source_metadata
    ([("status", .str "COMPLETED"),
      ("query", .str query),
      ("routing_category", cd.routing_category),
      ("final_answer", r.1.1),
      ("citations", r.1.2)], r.2)

/-- The per-category bullet lines of `_generate_greeting_response` and
`_build_summary_prompt`: `none` models the `KeyError` raised when a
routing-map entry has no `description`. -/
def category_description_lines (routing_map : List (String × Dict)) :
    Option (List String) :=
  routing_map.mapM
    (fun p => (dictGet p.2 "description").map (fun d => "• " ++ p.1 ++ ": " ++ pyStr d))

/-- `SynthesisAgent._generate_greeting_response` (synthesis_agent.py
lines 87-95). -/
def generate_greeting_response (routing_map : List (String × Dict)) :
    Option Dict :=
  (category_description_lines routing_map).map (fun lines =>
    [("status", .str "COMPLETED"),
     ("final_answer", .str
       ("Hello! I" ++ quoteChar ++ "m your document assistant. I can help you find information from our knowledge base.\n\nAvailable document categories:\n"
         ++ String.intercalate "\n" lines ++ "\n\nHow can I assist you today?")),
     ("categories", .arr (routing_map.map (fun p => JsonVal.str p.1))),
     ("citations", .arr [])])

/-- The category list of `SynthesisAgent._generate_fallback_response`
(synthesis_agent.py lines 129-132). -/
def fallback_categories : List String :=
  ["insurance_policy_booklet", "insurance_vehicle_policy", "insurance_keycare_policy",
   "insurance_credit_agreement", "insurance_claims"]

/-- The fixed text of `SynthesisAgent._generate_fallback_response`
(synthesis_agent.py lines 133-141). -/
def fallback_text (query : String) : String :=
  "I understand you" ++ quoteChar ++ "re asking about " ++ quoteChar ++ query ++ quoteChar
    ++ ". I have access to several insurance document categories:\n"
    ++ "• Insurance Policy Booklets - Terms, conditions, and coverage details\n"
    ++ "• Vehicle Insurance Policies - Auto coverage and claims information\n"
    ++ "• KeyCare Insurance Policies - Key replacement and locksmith services\n"
    ++ "• Credit Agreements - Premium financing and payment terms\n"
    ++ "• Insurance Claims - Filing procedures and claim processing\n\n"
    ++ "Could you be more specific about which type of insurance information you"
    ++ quoteChar ++ "re looking for?"

/-- `SynthesisAgent._generate_fallback_response` (synthesis_agent.py
lines 127-142). -/
def generate_fallback_response (query : String) : Dict :=
  [("status", .str "COMPLETED"),
   ("final_answer", .str (fallback_text query)),
   ("categories", .arr (fallback_categories.map JsonVal.str)),
   ("citations", .arr [])]

/-- `SynthesisAgent._generate_summary_response` (synthesis_agent.py
lines 97-125): the summary prompt is built first (its `KeyError` on a
description-less routing-map entry propagates: `none`); then the model is
invoked — a raised call or an empty stripped answer falls back to the fixed
response. The `Bool` records that the generative model was invoked. -/
def generate_summary_response (bedrock : Except Unit String) (query : String)
    (routing_map : List (String × Dict)) : Option (Dict × Bool) :=
  match category_description_lines routing_map with
  | none => none
  | some _ =>
    match bedrock with
    | .error _ => some (generate_fallback_response query, true)
    | .ok raw =>
      let answer := pyStrip raw
      if answer = "" then some (generate_fallback_response query, true)
      else
        some ([("status", .str "COMPLETED"),
               ("final_answer", .str answer),
               ("query_type", .str "general_inquiry"),
               ("categories", .arr (routing_map.map (fun p => JsonVal.str p.1))),
               ("citations", .arr [])], true)

/-- `SynthesisAgent._handle_general_response` (synthesis_agent.py
lines 72-81): greeting, general summary (when `classification_result is
None`), or the fixed fallback. `none` models an uncaught exception. -/
def handle_general_response (bedrock : Except Unit String) (query : String)
    (cd : SynthContextData) : Option (Dict × Bool) :=
  if is_greeting query then
    (generate_greeting_response cd.routing_map).map (fun d => (d, false))
  else if cd.classification_result.isNull then
    generate_summary_response bedrock query cd.routing_map
  else
    some (generate_fallback_response query, false)

/-- `SynthesisAgent.invoke` (synthesis_agent.py lines 16-37) after the
`_load_context` normalisation (the claims quantify over the already-decoded
`context_data`): a falsy query is an error; a truthy `retrieved_texts` goes
to the retrieval handler, anything else to the general handler. The `Bool`
records whether the generative model was invoked. -/
def synthesis_invoke (bedrock : Except Unit String)
    (loads : String → Option JsonVal) (query : String) (cd : SynthContextData) :
    Option (Dict × Bool) :=
  if query = "" then
    some ([("status", .str "ERROR"),
           ("message", .str "Missing query in context.")], false)
  else if !cd.retrieved_texts.isEmpty then
    some (handle_retrieval_response bedrock loads query cd)
  else
    handle_general_response bedrock query cd

/-- The session counters of the `IngestionPipeline` (pipeline.py line 18). -/
structure SessionStats where
  documents : Nat
  chunks : Nat
  failed : Nat
  deriving DecidableEq

/-- One chunk as produced by `DocumentProcessor.process_document`
(processor.py lines 30-36): content plus its own metadata dict. -/
structure Chunk where
  content : String
  metadata : Dict

/-- One record handed to the vector store (pipeline.py lines 66-73);
embeddings are opaque tokens here. -/
structure VectorRecord where
  embedding : Nat
  content : String
  metadata : Dict

/-- The external effects of one `ingest_document` call (pipeline.py
lines 21-117): the classifier call, the processor call, the embedder call,
the bulk vector insert, and the capability/result of each per-item fallback
insert. `Except.error` means the corresponding Python call raised. -/
structure IngestEnv where
  classify : Except Unit Classification
  process : Except Unit (List Chunk)
  embed : Except Unit (List Nat)
  bulk : Except Unit Unit
  hasSetCollection : Bool
  setCollectionOk : Nat → Bool
  hasAddEmbedding : Bool
  addOk : Nat → Bool

/-- The hardcoded substitute classification used when the classifier call
raises (pipeline.py lines 40-45). The source dict carries no `keywords`
key and `keywords` is never read on this path, so it is `[]` here. -/
def pipeline_default_classification : Classification :=
  { category_id := "general_documents",
    vector_collection_name := "general_documents",
    description := "Automatically classified document",
    keywords := [],
    is_new := false }

/-- The classification actually used by the pipeline: the classifier result,
or the hardcoded default when the classifier raised (pipeline.py
lines 34-45). -/
def resolved_classification (env : IngestEnv) : Classification :=
  match env.classify with
  | .ok c => c
  | .error _ => pipeline_default_classification

/-- Display-filename resolution (pipeline.py lines 27-29): prefer a truthy
`original_filename` from a truthy metadata dict, else the path's basename. -/
def resolve_filename (metadata : Option Dict) (path_name : String) : JsonVal :=
  let f0 : JsonVal :=
    match metadata with
    | some m => if !m.isEmpty then getOrNull m "original_filename" else JsonVal.str path_name
    | none => JsonVal.str path_name
  if f0.isTruthy then f0 else JsonVal.str path_name

/-- The five-key `doc_metadata.update({...})` of pipeline.py lines 57-64. -/
def doc_metadata_update (base : Dict) (filename : JsonVal) (c : Classification) : Dict :=
  dictUpdate base
    [("source_file", filename),
     ("filename", filename),
     ("description", JsonVal.str c.description),
     ("category_id", JsonVal.str c.category_id),
     ("vector_collection_name", JsonVal.str c.vector_collection_name)]

/-- The per-item fallback loop of pipeline.py lines 80-99: `i` is the item
index, the first argument counts the remaining items, `acc` is
`success_count`. A raising `set_collection` is caught and skips the item; a
missing `add_embedding` breaks out of the loop; a raising `add_embedding` is
caught and skips the item. -/
def fallback_insert_count (env : IngestEnv) : Nat → Nat → Nat → Nat
  | 0, _, acc => acc
  | remaining + 1, i, acc =>
    if env.hasSetCollection && !env.setCollectionOk i then
      fallback_insert_count env remaining (i + 1) acc
    else if !env.hasAddEmbedding then acc
    else if env.addOk i then fallback_insert_count env remaining (i + 1) (acc + 1)
    else fallback_insert_count env remaining (i + 1) acc

/-- Whether the per-item fallback insert of item `i` succeeds: the
`set_collection` call (when the store has one) and the `add_embedding` call
must both go through. -/
def item_succeeds (env : IngestEnv) (i : Nat) : Bool :=
  (!env.hasSetCollection || env.setCollectionOk i) && env.addOk i

/-- The outcome of one `ingest_document` call: the returned classification
(`none` = failure/nothing-to-ingest), the caller's metadata dictionary after
the call (Python passes it by reference and the pipeline mutates it), and
the session counters after the call. -/
structure IngestOutcome where
  result : Option Classification
  caller_metadata : Option Dict
  stats : SessionStats

/-- `IngestionPipeline.ingest_document` (pipeline.py lines 21-117).
Stage order follows the source: classify (with hardcoded fallback), chunk
(a raising processor fails the document; zero chunks returns `None` without
touching counters), embed, merge the document metadata into the caller's
dict (an in-place `update` when the caller passed a truthy dict), build the
vector records, bulk insert with the per-item fallback, then update the
session counters; any raising stage lands in the outer handler, which
increments `failed`. -/
def ingest_document (env : IngestEnv) (path_name : String)
    (metadata : Option Dict) (stats : SessionStats) : IngestOutcome :=
  let filename := resolve_filename metadata path_name
  let classification := resolved_classification env
  match env.process with
  | .error _ =>
    { result := none, caller_metadata := metadata,
      stats := { stats with failed := stats.failed + 1 } }
  | .ok chunks =>
    if chunks.isEmpty then
      { result := none, caller_metadata := metadata, stats := stats }
    else
      match env.embed with
      | .error _ =>
        { result := none, caller_metadata := metadata,
          stats := { stats with failed := stats.failed + 1 } }
      | .ok embeddings =>
        let base : Dict :=
          match metadata with
          | some m => if !m.isEmpty then m else []
          | none => []
        let doc_md := doc_metadata_update base filename classification
        let caller_md : Option Dict :=
          match metadata with
          | some m => if !m.isEmpty then some doc_md else some m
          | none => none
        let vectors_data : List VectorRecord :=
          (chunks.zip embeddings).map (fun p =>
            { embedding := p.2, content := p.1.content,
              metadata := dictUpdate doc_md p.1.metadata })
        match env.bulk with
        | .ok _ =>
          { result := some classification, caller_metadata := caller_md,
            stats := { stats with documents := stats.documents + 1,
                                  chunks := stats.chunks + chunks.length } }
        | .error _ =>
          let success_count := fallback_insert_count env vectors_data.length 0 0
          if 0 < success_count then
            { result := some classification, caller_metadata := caller_md,
              stats := { stats with documents := stats.documents + 1,
                                    chunks := stats.chunks + chunks.length } }
          else
            { result := none, caller_metadata := caller_md,
              stats := { stats with failed := stats.failed + 1 } }

/-- `IngestionPipeline.reset_all_data` (pipeline.py lines 392-609). The two
subsystem resets are abstracted to the status strings they resolve to
(each of the capability-dispatched branches ends in `success`,
`partial_success`, `skipped` or `error`); the report keeps them as `none`
when the run was cancelled (no destructive action attempted). The overall
status aggregation and the unconditional counter reset follow lines 581-601. -/
def reset_all_data (confirm : Bool) (dynStatus vecStatus : String)
    (stats : SessionStats) : (String × Option String × Option String) × SessionStats :=
  if !confirm then
    (("cancelled", none, none), stats)
  else
    let successful :=
      (if dynStatus = "success" ∨ dynStatus = "skipped" then 1 else 0) +
      (if vecStatus = "success" ∨ vecStatus = "skipped" then 1 else 0)
    let partials :=
      (if dynStatus = "partial_success" then 1 else 0) +
      (if vecStatus = "partial_success" then 1 else 0)
    let overall :=
      if successful = 2 then "success"
      else if 1 ≤ successful + partials then "partial_success"
      else "error"
    ((overall, some dynStatus, some vecStatus),
     { documents := 0, chunks := 0, failed := 0 })

/-- Setting a key makes it readable. -/
theorem dictGet_dictSet_self (d : Dict) (k : String) (v : JsonVal) :
    dictGet (dictSet d k v) k = some v := by
  induction d with
  | nil => simp [dictSet, dictGet]
  | cons p rest ih =>
    by_cases h : p.1 = k
    · simp [dictSet, dictGet, h]
    · simp [dictSet, dictGet, h, ih]

/-- Setting one key leaves every other key unchanged. -/
theorem dictGet_dictSet_ne (d : Dict) (k k' : String) (v : JsonVal)
    (h : k' ≠ k) : dictGet (dictSet d k v) k' = dictGet d k' := by
  induction d with
  | nil => simp [dictSet, dictGet, Ne.symm h]
  | cons p rest ih =>
    by_cases hp : p.1 = k
    · subst hp
      simp [dictSet, dictGet, h, Ne.symm h]
    · by_cases hp' : p.1 = k'
      · simp [dictSet, dictGet, hp, hp', h, ih]
      · simp [dictSet, dictGet, hp, hp', h, ih]

/-- The five keys written by `doc_metadata_update` read back as the values
the pipeline wrote. -/
theorem dictGet_doc_metadata_update (base : Dict) (f : JsonVal)
    (c : Classification) :
    dictGet (doc_metadata_update base f c) "source_file" = some f ∧
    dictGet (doc_metadata_update base f c) "filename" = some f ∧
    dictGet (doc_metadata_update base f c) "description" = some (.str c.description) ∧
    dictGet (doc_metadata_update base f c) "category_id" = some (.str c.category_id) ∧
    dictGet (doc_metadata_update base f c) "vector_collection_name"
      = some (.str c.vector_collection_name) := by
  unfold doc_metadata_update dictUpdate
  simp only [List.foldl]
  refine ⟨?_, ?_, ?_, ?_, ?_⟩
  · rw [dictGet_dictSet_ne _ "vector_collection_name" "source_file" _ (by decide),
        dictGet_dictSet_ne _ "category_id" "source_file" _ (by decide),
        dictGet_dictSet_ne _ "description" "source_file" _ (by decide),
        dictGet_dictSet_ne _ "filename" "source_file" _ (by decide),
        dictGet_dictSet_self _ "source_file" _]
  · rw [dictGet_dictSet_ne _ "vector_collection_name" "filename" _ (by decide),
        dictGet_dictSet_ne _ "category_id" "filename" _ (by decide),
        dictGet_dictSet_ne _ "description" "filename" _ (by decide),
        dictGet_dictSet_self _ "filename" _]
  · rw [dictGet_dictSet_ne _ "vector_collection_name" "description" _ (by decide),
        dictGet_dictSet_ne _ "category_id" "description" _ (by decide),
        dictGet_dictSet_self _ "description" _]
  · rw [dictGet_dictSet_ne _ "vector_collection_name" "category_id" _ (by decide),
        dictGet_dictSet_self _ "category_id" _]
  · rw [dictGet_dictSet_self _ "vector_collection_name" _]

/-- Appending a record does not shadow an earlier one, and is found exactly
when no earlier record has the key. -/
theorem get_category_append (t : List CategoryItem) (x : CategoryItem)
    (id : String) :
    get_category (t ++ [x]) id =
      match get_category t id with
      | some r => some r
      | none => if x.category_id = id then some x else none := by
  induction t with
  | nil => simp [get_category]
  | cons it rest ih =>
    by_cases h : it.category_id = id
    · simp [get_category, h]
    · simp [get_category, h, ih]

/-- The atomic increment bumps the stored counter by one (creating the item
when absent). -/
theorem get_category_increment (t : List CategoryItem) (id : String) :
    get_category (increment_count t id) id =
      match get_category t id with
      | some it => some { it with document_count := it.document_count + 1 }
      | none => some { category_id := id, vector_collection_name := "",
                       description := "", keywords := [], document_count := 1 } := by
  induction t with
  | nil => simp [increment_count, get_category]
  | cons it rest ih =>
    by_cases h : it.category_id = id
    · simp [increment_count, get_category, h]
    · simp [increment_count, get_category, h, ih]

/-- The atomic increment leaves every other key unchanged. -/
theorem get_category_increment_ne (t : List CategoryItem) (id id' : String)
    (h : id' ≠ id) :
    get_category (increment_count t id) id' = get_category t id' := by
  induction t with
  | nil => simp [increment_count, get_category, h, Ne.symm h]
  | cons it rest ih =>
    by_cases hit : it.category_id = id
    · subst hit
      simp [increment_count, get_category, Ne.symm h]
    · by_cases hit' : it.category_id = id'
      · simp [increment_count, get_category, hit, hit', h, ih]
      · simp [increment_count, get_category, hit, hit', h, ih]

/-- The increment adds exactly one to the resolved category's count. -/
theorem doc_count_increment (t : List CategoryItem) (id : String) :
    doc_count (increment_count t id) id = doc_count t id + 1 := by
  unfold doc_count
  rw [get_category_increment]
  cases h : get_category t id <;> simp

/-- A key is absent exactly when no record carries it. -/
theorem get_category_eq_none_iff_countId (t : List CategoryItem) (id : String) :
    get_category t id = none ↔ countId t id = 0 := by
  induction t with
  | nil => simp [get_category, countId]
  | cons it rest ih =>
    by_cases h : it.category_id = id
    · simp [get_category, countId, h]
    · simp [get_category, countId, h, ih]

/-- Record count across an append. -/
theorem countId_append (t : List CategoryItem) (x : CategoryItem) (id : String) :
    countId (t ++ [x]) id = countId t id + (if x.category_id = id then 1 else 0) := by
  unfold countId
  rw [List.filter_append]
  by_cases h : x.category_id = id <;> simp [h]

/-- The per-item success count written as a plain sum over item indices. -/
def countSucc (env : IngestEnv) : Nat → Nat → Nat
  | 0, _ => 0
  | r + 1, i => (if item_succeeds env i then 1 else 0) + countSucc env r (i + 1)

/-- When the store has an `add_embedding` method the fallback loop never
breaks, so `success_count` is exactly the number of items whose individual
insert goes through. -/
theorem fallback_insert_count_eq (env : IngestEnv)
    (hadd : env.hasAddEmbedding = true) :
    ∀ (r i acc : Nat), fallback_insert_count env r i acc = acc + countSucc env r i := by
  intro r
  induction r with
  | zero => intro i acc; simp [fallback_insert_count, countSucc]
  | succ n ih =>
    intro i acc
    simp only [fallback_insert_count, countSucc, hadd]
    cases hs : env.hasSetCollection <;> cases hso : env.setCollectionOk i <;>
      cases ha : env.addOk i <;>
      simp [item_succeeds, hs, hso, ha, ih, hadd] <;> omega

/-- The success count is positive exactly when some item's individual
insert succeeds. -/
theorem countSucc_pos_iff (env : IngestEnv) :
    ∀ (r i : Nat), 0 < countSucc env r i ↔ ∃ j, j < r ∧ item_succeeds env (i + j) = true := by
  intro r
  induction r with
  | zero => intro i; simp [countSucc]
  | succ n ih =>
    intro i
    cases h : item_succeeds env i with
    | true =>
      constructor
      · intro _
        exact ⟨0, by omega, by simpa using h⟩
      · intro _
        have hc : countSucc env (n + 1) i = 1 + countSucc env n (i + 1) := by
          simp [countSucc, h]
        omega
    | false =>
      have hc : countSucc env (n + 1) i = countSucc env n (i + 1) := by
        simp [countSucc, h]
      rw [hc, ih (i + 1)]
      constructor
      · rintro ⟨j, hj, hjs⟩
        refine ⟨j + 1, by omega, ?_⟩
        have he : i + (j + 1) = i + 1 + j := by omega
        rw [he]
        exact hjs
      · rintro ⟨j, hj, hjs⟩
        cases j with
        | zero =>
          rw [Nat.add_zero] at hjs
          rw [h] at hjs
          cases hjs
        | succ j' =>
          refine ⟨j', by omega, ?_⟩
          have he : i + 1 + j' = i + (j' + 1) := by omega
          rw [he]
          exact hjs

/-- C2 counterexample: the constructor accepts `chunk_size = 1,
chunk_overlap = 5` — a configuration violating `chunk_overlap < chunk_size`
— without any rejection, and on the two-character text "ab" the split loop
is still running when the fuel that suffices for every valid configuration
(`text.length + 1`) is exhausted. -/
theorem c2_counterexample :
    DocumentProcessor.init 1 5 = Except.ok { chunk_size := 1, chunk_overlap := 5 } ∧
    ¬ (5 : Nat) < 1 ∧
    splitTextFuel 1 5 "ab".data ("ab".data.length + 1) = none :=
  ⟨rfl, by decide, by decide⟩

/-- C2 (amended): the Chunker's constructor performs no validation of
`chunk_overlap < chunk_size` (it accepts every configuration), and under
that precondition `_split_text` terminates for every input text — fuel
`text.length + 1` always suffices. -/
theorem c2_chunker_precondition :
    (∀ size overlap : Nat, DocumentProcessor.init size overlap
        = Except.ok { chunk_size := size, chunk_overlap := overlap }) ∧
    (∀ (size overlap : Nat) (text : List Char), overlap < size →
        (splitTextFuel size overlap text (text.length + 1)).isSome) :=
  ⟨fun _ _ => rfl, fun size overlap text h => splitTextFuel_terminates size overlap h text⟩

/-- C2 witness: the amended theorem applied at `size = 3`, `overlap = 1`,
text "hello". -/
theorem c2_chunker_precondition_witness :
    (splitTextFuel 3 1 "hello".data ("hello".data.length + 1)).isSome :=
  c2_chunker_precondition.2 3 1 "hello".data (by decide)

/-- C3: every classification-response failure mode — no curly-brace block in
the model output, a `json.loads` failure on the extracted block, a decoded
value that does not contain all required fields (including the `TypeError`
of membership on a non-container) — and a raised model call all yield the
fixed default classification, whose `category_id` is `general_documents`
and which contains every required field. -/
theorem c3_classifier_default_fallback :
    (∀ (loads : String → Option JsonVal) (response : String),
        extract_json_str response = none →
        parse_response loads response = default_classification) ∧
    (∀ (loads : String → Option JsonVal) (response js : String),
        extract_json_str response = some js → loads js = none →
        parse_response loads response = default_classification) ∧
    (∀ (loads : String → Option JsonVal) (response js : String) (d : JsonVal),
        extract_json_str response = some js → loads js = some d →
        pyAllRequired d ≠ some true →
        parse_response loads response = default_classification) ∧
    (∀ loads : String → Option JsonVal,
        classify_with_llm loads (Except.error ()) = default_classification) ∧
    pyAllRequired default_classification = some true ∧
    dictGet default_classification_fields "category_id"
      = some (JsonVal.str "general_documents") := by
  refine ⟨?_, ?_, ?_, fun _ => rfl, by decide, rfl⟩
  · intro loads response h
    simp [parse_response, h]
  · intro loads response js h1 h2
    simp [parse_response, h1, h2]
  · intro loads response js d h1 h2 h3
    simp only [parse_response, h1, h2]

/-- C3 witness: the first failure mode at a concrete non-JSON model output. -/
theorem c3_classifier_default_fallback_witness :
    parse_response (fun _ => none) "no json in this output"
      = default_classification :=
  c3_classifier_default_fallback.1 (fun _ => none) "no json in this output" (by decide)

/-- C4: `reset_all_data` without confirmation performs no destructive action
(neither subsystem is attempted and the counters are untouched) and reports
`cancelled`; with confirmation, one failing subsystem beside one successful
subsystem yields overall `partial_success`, and the session counters are
reset to zero whatever the subsystem outcomes were. -/
theorem c4_reset_semantics (d v : String) (s : SessionStats) :
    reset_all_data false d v s = (("cancelled", none, none), s) ∧
    (d = "error" → v = "success" →
        (reset_all_data true d v s).1.1 = "partial_success") ∧
    (d = "success" → v = "error" →
        (reset_all_data true d v s).1.1 = "partial_success") ∧
    (reset_all_data true d v s).2 = { documents := 0, chunks := 0, failed := 0 } := by
  refine ⟨rfl, ?_, ?_, rfl⟩
  · intro hd hv
    subst hd
    subst hv
    rfl
  · intro hd hv
    subst hd
    subst hv
    rfl

/-- C4 witness: the confirmed run with a failing category store and a
successful vector store. -/
theorem c4_reset_semantics_witness :
    (reset_all_data true "error" "success" ⟨3, 17, 2⟩).1.1 = "partial_success" ∧
    (reset_all_data true "error" "success" ⟨3, 17, 2⟩).2
      = { documents := 0, chunks := 0, failed := 0 } :=
  ⟨(c4_reset_semantics "error" "success" ⟨3, 17, 2⟩).2.1 rfl rfl,
   (c4_reset_semantics "error" "success" ⟨3, 17, 2⟩).2.2.2⟩

/-- The three-candidate demonstration of the spec's threshold example:
distances giving relevance scores 0.9, 0.5 and 0.2 in that ranking order. -/
def demo_candidates : List RawCandidate :=
  [{ id := "id1", document := "t1", metadata := some [], distance := 1/10 },
   { id := "id2", document := "t2", metadata := some [], distance := 1/2 },
   { id := "id3", document := "t3", metadata := some [], distance := 4/5 }]

/-- The processed demonstration results. -/
def demo_results : List SearchResult := demo_candidates.map process_candidate

/-- C7: the threshold filter keeps exactly the results whose
`relevance_score` is at least `0.3`, preserving the input order (the output
is a sublist of the input); on results scored `[0.9, 0.5, 0.2]` exactly the
first two survive, still in descending relevance order. -/
theorem c7_relevance_threshold_filter :
    (∀ rs : List SearchResult, List.Sublist (filter_by_relevance rs) rs) ∧
    (∀ (rs : List SearchResult) (r : SearchResult),
        r ∈ filter_by_relevance rs ↔
          r ∈ rs ∧ relevance_threshold ≤ r.relevance_score) ∧
    demo_results.map (fun r => r.relevance_score) = [9/10, 1/2, 1/5] ∧
    (filter_by_relevance demo_results).map (fun r => r.relevance_score)
      = [9/10, 1/2] := by
  have h1 : (1 : ℚ) - 1/10 = 9/10 := by norm_num
  have h2 : (1 : ℚ) - 1/2 = 1/2 := by norm_num
  have h3 : (1 : ℚ) - 4/5 = 1/5 := by norm_num
  have t1 : relevance_threshold ≤ (1 : ℚ) - 1/10 := by norm_num [relevance_threshold]
  have t2 : relevance_threshold ≤ (1 : ℚ) - 1/2 := by norm_num [relevance_threshold]
  have t3 : ¬ relevance_threshold ≤ (1 : ℚ) - 4/5 := by norm_num [relevance_threshold]
  refine ⟨fun rs => List.filter_sublist rs, ?_, ?_, ?_⟩
  · intro rs r
    simp [filter_by_relevance, List.mem_filter]
  · simp only [demo_results, demo_candidates, process_candidate, List.map]
    norm_num
  · simp only [demo_results, demo_candidates, process_candidate,
               filter_by_relevance, List.filter]
    rw [decide_eq_true t1, decide_eq_true t2, decide_eq_false t3]
    simp only [List.map]
    norm_num

/-- A candidate with no metadata and raw result id `abc123`. -/
def c8_cand_a : RawCandidate :=
  { id := "abc123", document := "d", metadata := none, distance := 0 }

/-- C8 counterexample: with no metadata at all and raw result id `abc123`,
the resolved `chunk_id` is the raw id but the resolved `source_uri` is the
literal `"N/A"` — not the raw id as claimed. -/
theorem c8_counterexample :
    (process_candidate c8_cand_a).source_uri = JsonVal.str "N/A" ∧
    (process_candidate c8_cand_a).chunk_id = JsonVal.str "abc123" ∧
    "N/A" ≠ "abc123" :=
  ⟨rfl, rfl, by decide⟩

/-- C8 (amended): `source_uri` and `chunk_id` are resolved through ordered
alias chains over the result metadata (first truthy alias wins, with
`source_uri` first in its chain and `chunk_id` first in its own); when no
alias holds a truthy value, `chunk_id` falls back to the raw result id while
`source_uri` falls back to the literal `"N/A"`. -/
theorem c8_alias_resolution (c : RawCandidate) :
    ((getOrNull (c.metadata.getD []) "source_uri").isTruthy = true →
        (process_candidate c).source_uri = getOrNull (c.metadata.getD []) "source_uri") ∧
    ((∀ k ∈ (["source_uri", "source", "file_path", "filename",
              "document_id"] : List String),
        (getOrNull (c.metadata.getD []) k).isTruthy = false) →
        (process_candidate c).source_uri = JsonVal.str "N/A") ∧
    ((getOrNull (c.metadata.getD []) "chunk_id").isTruthy = true →
        (process_candidate c).chunk_id = getOrNull (c.metadata.getD []) "chunk_id") ∧
    ((∀ k ∈ (["chunk_id", "chunk_index", "page_number",
              "section_id"] : List String),
        (getOrNull (c.metadata.getD []) k).isTruthy = false) →
        (process_candidate c).chunk_id = JsonVal.str c.id) := by
  refine ⟨?_, ?_, ?_, ?_⟩
  · intro h
    simp [process_candidate, resolve_source_uri, pyOr, h]
  · intro h
    have h1 := h "source_uri" (by simp)
    have h2 := h "source" (by simp)
    have h3 := h "file_path" (by simp)
    have h4 := h "filename" (by simp)
    have h5 := h "document_id" (by simp)
    simp [process_candidate, resolve_source_uri, pyOr, h1, h2, h3, h4, h5]
  · intro h
    simp [process_candidate, resolve_chunk_id, pyOr, h]
  · intro h
    have h1 := h "chunk_id" (by simp)
    have h2 := h "chunk_index" (by simp)
    have h3 := h "page_number" (by simp)
    have h4 := h "section_id" (by simp)
    simp [process_candidate, resolve_chunk_id, pyOr, h1, h2, h3, h4]

/-- A candidate with no metadata and raw result id `raw-7`. -/
def c8_cand_b : RawCandidate :=
  { id := "raw-7", document := "d", metadata := none, distance := 0 }

/-- C8 witness: the amended fallbacks applied to a metadata-less candidate
with raw id `raw-7`. -/
theorem c8_alias_resolution_witness :
    (process_candidate c8_cand_b).source_uri = JsonVal.str "N/A" ∧
    (process_candidate c8_cand_b).chunk_id = JsonVal.str "raw-7" :=
  ⟨(c8_alias_resolution c8_cand_b).2.1 (fun _ _ => rfl),
   (c8_alias_resolution c8_cand_b).2.2.2 (fun _ _ => rfl)⟩

/-- C9: conditional category creation is idempotent — starting from a table
with no record under the id, the first call inserts exactly one record, and
the second call reports the condition failure (`false`, the swallowed
`ConditionalCheckFailedException`) and leaves the table untouched, with
still exactly one record under the id. -/
theorem c9_create_category_idempotent (c : Classification)
    (table : List CategoryItem) (h : countId table c.category_id = 0) :
    (create_category table c).1 = true ∧
    countId (create_category table c).2 c.category_id = 1 ∧
    (create_category (create_category table c).2 c).1 = false ∧
    (create_category (create_category table c).2 c).2 = (create_category table c).2 := by
  have hget : get_category table c.category_id = none :=
    (get_category_eq_none_iff_countId table c.category_id).mpr h
  have hc1 : create_category table c
      = (true, table ++ [{ category_id := c.category_id,
                           vector_collection_name := c.vector_collection_name,
                           description := c.description, keywords := c.keywords,
                           document_count := 0 }]) := by
    simp [create_category, hget]
  have hget2 : get_category (create_category table c).2 c.category_id
      = some { category_id := c.category_id,
               vector_collection_name := c.vector_collection_name,
               description := c.description, keywords := c.keywords,
               document_count := 0 } := by
    rw [hc1, get_category_append, hget]
    simp
  have hsecond : ∀ t1 : List CategoryItem,
      get_category t1 c.category_id
        = some { category_id := c.category_id,
                 vector_collection_name := c.vector_collection_name,
                 description := c.description, keywords := c.keywords,
                 document_count := 0 } →
      create_category t1 c = (false, t1) := by
    intro t1 hg
    simp [create_category, hg]
  refine ⟨by rw [hc1], ?_, ?_, ?_⟩
  · rw [hc1]
    simp [countId_append, h]
  · rw [hsecond _ hget2]
  · rw [hsecond _ hget2]

/-- The conditionally-created classification used in the C9 witness. -/
def c9_demo_c : Classification :=
  { category_id := "newcat", vector_collection_name := "newcoll",
    description := "d", keywords := [], is_new := false }

/-- C9 witness: creating `newcat` twice starting from the empty table. -/
theorem c9_create_category_idempotent_witness :
    (create_category [] c9_demo_c).1 = true ∧
    countId (create_category [] c9_demo_c).2 "newcat" = 1 ∧
    (create_category (create_category [] c9_demo_c).2 c9_demo_c).1 = false ∧
    (create_category (create_category [] c9_demo_c).2 c9_demo_c).2
      = (create_category [] c9_demo_c).2 :=
  c9_create_category_idempotent c9_demo_c [] rfl

/-- C6: `classify_document` against an existing record returns the stored
description and collection name (not the model's) with `is_new = false`; an
absent id is created (with the model's fields and a stored count that ends
at one) with `is_new = true`; in both cases the resolved category's stored
count grows by exactly one, and no other category's record changes. -/
theorem c6_classify_document_contract (c : Classification)
    (table : List CategoryItem) :
    (∀ e, get_category table c.category_id = some e →
        (classify_document c table).1.description = e.description ∧
        (classify_document c table).1.vector_collection_name
          = e.vector_collection_name ∧
        (classify_document c table).1.is_new = false ∧
        doc_count (classify_document c table).2 c.category_id
          = doc_count table c.category_id + 1) ∧
    (get_category table c.category_id = none →
        (classify_document c table).1.is_new = true ∧
        get_category (classify_document c table).2 c.category_id
          = some { category_id := c.category_id,
                   vector_collection_name := c.vector_collection_name,
                   description := c.description, keywords := c.keywords,
                   document_count := 1 } ∧
        doc_count (classify_document c table).2 c.category_id
          = doc_count table c.category_id + 1) ∧
    (∀ id', id' ≠ c.category_id →
        get_category (classify_document c table).2 id' = get_category table id') := by
  refine ⟨?_, ?_, ?_⟩
  · intro e he
    simp [classify_document, he, doc_count_increment]
  · intro hnone
    have hcreate : (create_category table c).2
        = table ++ [{ category_id := c.category_id,
                      vector_collection_name := c.vector_collection_name,
                      description := c.description, keywords := c.keywords,
                      document_count := 0 }] := by
      simp [create_category, hnone]
    simp only [classify_document, hnone]
    refine ⟨by trivial, ?_, ?_⟩
    · rw [hcreate, get_category_increment, get_category_append, hnone]
      simp
    · rw [hcreate, doc_count_increment]
      unfold doc_count
      rw [get_category_append, hnone]
      simp
  · intro id' hne
    cases hg : get_category table c.category_id with
    | some e =>
      simp only [classify_document, hg]
      exact get_category_increment_ne table c.category_id id' hne
    | none =>
      have hcreate : (create_category table c).2
          = table ++ [{ category_id := c.category_id,
                        vector_collection_name := c.vector_collection_name,
                        description := c.description, keywords := c.keywords,
                        document_count := 0 }] := by
        simp [create_category, hg]
      simp only [classify_document, hg]
      rw [hcreate, get_category_increment_ne _ _ _ hne, get_category_append]
      cases hg' : get_category table id' with
      | some r => rfl
      | none => simp [Ne.symm hne]

/-- The model's classification proposal used in the C6 witness. -/
def c6_model_c : Classification :=
  { category_id := "catA", vector_collection_name := "modelColl",
    description := "modelDesc", keywords := ["k"], is_new := true }

/-- The stored record for `catA` used in the C6 witness. -/
def c6_stored : CategoryItem :=
  { category_id := "catA", vector_collection_name := "collX",
    description := "descX", keywords := [], document_count := 3 }

/-- C6 witness: classifying into the existing category `catA` (stored
description `descX`, stored count 3) with a model classification that
proposed different values. -/
theorem c6_classify_document_contract_witness :
    (classify_document c6_model_c [c6_stored]).1.description = "descX" ∧
    (classify_document c6_model_c [c6_stored]).1.is_new = false ∧
    doc_count (classify_document c6_model_c [c6_stored]).2 "catA" = 4 := by
  have h := (c6_classify_document_contract c6_model_c [c6_stored]).1 c6_stored rfl
  exact ⟨h.1, h.2.2.1, h.2.2.2.trans rfl⟩

/-- An empty-retrieval context as produced by the retrieval agent for a
query with no surviving chunks (no classification result present). -/
def c1ctx : SynthContextData :=
  { retrieved_texts := [], source_metadata := [], routing_category := JsonVal.null,
    routing_map := [], classification_result := JsonVal.null }

/-- C1 counterexample: on an empty-retrieval context, `invoke` routes to the
general-response path and the generative model IS invoked (the flag is
`true`), returning the model's summary text — not the fixed
no-relevant-documents answer. -/
theorem c1_counterexample :
    synthesis_invoke (Except.ok "LLM SAYS") (fun _ => none) "what is keycare" c1ctx
      = some ([("status", JsonVal.str "COMPLETED"),
               ("final_answer", JsonVal.str "LLM SAYS"),
               ("query_type", JsonVal.str "general_inquiry"),
               ("categories", JsonVal.arr []),
               ("citations", JsonVal.arr [])], true) ∧
    "LLM SAYS" ≠ no_relevant_msg "what is keycare" :=
  ⟨rfl, by decide⟩

/-- C1 (amended): `_handle_retrieval_response` given a context with empty
`retrieved_texts` returns the fixed no-relevant-documents answer with empty
citations and never invokes the generative model; but `invoke` never routes
an empty-retrieval context there — for a non-empty query with empty
`retrieved_texts`, `invoke` dispatches to the general-response path, which
may invoke the model. -/
theorem c1_empty_retrieval_contract (bedrock : Except Unit String)
    (loads : String → Option JsonVal) (query : String) (cd : SynthContextData)
    (h : cd.retrieved_texts = []) (hq : query ≠ "") :
    handle_retrieval_response bedrock loads query cd
      = ([("status", JsonVal.str "COMPLETED"),
          ("final_answer", JsonVal.str (no_relevant_msg query)),
          ("citations", JsonVal.arr [])], false) ∧
    synthesis_invoke bedrock loads query cd
      = handle_general_response bedrock query cd := by
  constructor
  · simp [handle_retrieval_response, h]
  · simp [synthesis_invoke, h, hq]

/-- C1 witness: the canned answer produced by the retrieval handler for an
empty-retrieval context. -/
theorem c1_empty_retrieval_contract_witness :
    handle_retrieval_response (Except.ok "x") (fun _ => none) "list my policies" c1ctx
      = ([("status", JsonVal.str "COMPLETED"),
          ("final_answer", JsonVal.str (no_relevant_msg "list my policies")),
          ("citations", JsonVal.arr [])], false) :=
  (c1_empty_retrieval_contract (Except.ok "x") (fun _ => none)
    "list my policies" c1ctx rfl (by decide)).1

/-- C5: when the bulk vector insert raises and the store supports per-item
inserts, ingestion succeeds (returning the resolved classification, with the
documents counter bumped and no failure recorded) exactly when at least one
per-item insert succeeds; when every per-item insert fails the document's
ingestion returns absent and a failure is recorded. -/
theorem c5_bulk_insert_fallback (env : IngestEnv) (path : String)
    (md : Option Dict) (s : SessionStats) (chunks : List Chunk)
    (embeddings : List Nat)
    (hp : env.process = Except.ok chunks) (hne : chunks ≠ [])
    (he : env.embed = Except.ok embeddings)
    (hb : env.bulk = Except.error ())
    (hadd : env.hasAddEmbedding = true) :
    ((∃ j, j < (chunks.zip embeddings).length ∧ item_succeeds env j = true) →
        (ingest_document env path md s).result = some (resolved_classification env) ∧
        (ingest_document env path md s).stats.documents = s.documents + 1 ∧
        (ingest_document env path md s).stats.failed = s.failed) ∧
    ((∀ j, j < (chunks.zip embeddings).length → item_succeeds env j = false) →
        (ingest_document env path md s).result = none ∧
        (ingest_document env path md s).stats.failed = s.failed + 1) := by
  have hie : chunks.isEmpty = false := by
    cases chunks with
    | nil => exact absurd rfl hne
    | cons a l => rfl
  simp only [ingest_document, hp, he, hb, hie, Bool.false_eq_true, if_false,
             List.length_map]
  rw [fallback_insert_count_eq env hadd]
  simp only [Nat.zero_add]
  constructor
  · rintro ⟨j, hj, hjs⟩
    have hpos : 0 < countSucc env (chunks.zip embeddings).length 0 :=
      (countSucc_pos_iff env (chunks.zip embeddings).length 0).mpr
        ⟨j, hj, by simpa using hjs⟩
    rw [if_pos hpos]
    exact ⟨rfl, rfl, rfl⟩
  · intro hall
    have hzero : ¬ 0 < countSucc env (chunks.zip embeddings).length 0 := by
      rw [countSucc_pos_iff]
      rintro ⟨j, hj, hjs⟩
      rw [Nat.zero_add] at hjs
      rw [hall j hj] at hjs
      cases hjs
    rw [if_neg hzero]
    exact ⟨rfl, rfl⟩

/-- The C5 witness environment: a one-chunk document whose bulk insert
raises, with working per-item inserts. -/
def c5_env : IngestEnv :=
  { classify := Except.ok pipeline_default_classification,
    process := Except.ok [{ content := "c", metadata := [] }],
    embed := Except.ok [7],
    bulk := Except.error (),
    hasSetCollection := false, setCollectionOk := fun _ => true,
    hasAddEmbedding := true, addOk := fun _ => true }

/-- C5 witness: the fallback succeeds on the one-chunk document. -/
theorem c5_bulk_insert_fallback_witness :
    (ingest_document c5_env "f.txt" none ⟨0, 0, 0⟩).result
      = some (resolved_classification c5_env) ∧
    (ingest_document c5_env "f.txt" none ⟨0, 0, 0⟩).stats.documents = 0 + 1 ∧
    (ingest_document c5_env "f.txt" none ⟨0, 0, 0⟩).stats.failed = 0 :=
  (c5_bulk_insert_fallback c5_env "f.txt" none ⟨0, 0, 0⟩
      [{ content := "c", metadata := [] }] [7]
      rfl (List.cons_ne_nil _ _) rfl rfl rfl).1
    ⟨0, by decide, rfl⟩

/-- C10 counterexample: a call with a non-empty caller metadata dict whose
document yields zero chunks returns with the caller's dictionary unchanged —
none of the five pipeline keys was added. -/
def c10_empty_env : IngestEnv :=
  { classify := Except.ok pipeline_default_classification,
    process := Except.ok [],
    embed := Except.ok [],
    bulk := Except.ok (),
    hasSetCollection := false, setCollectionOk := fun _ => true,
    hasAddEmbedding := true, addOk := fun _ => true }

/-- C10 counterexample theorem: with metadata `{"a": "b"}` and an empty
document, `ingest_document` leaves the caller's dict untouched (no
`category_id`, no `source_file` key). -/
theorem c10_counterexample :
    (ingest_document c10_empty_env "doc.txt"
        (some [("a", JsonVal.str "b")]) ⟨0, 0, 0⟩).caller_metadata
      = some [("a", JsonVal.str "b")] ∧
    dictGet [("a", JsonVal.str "b")] "category_id" = none ∧
    dictGet [("a", JsonVal.str "b")] "source_file" = none :=
  ⟨rfl, rfl, rfl⟩

/-- C10 (amended): for every call that reaches the metadata-merge step (the
processor produced at least one chunk and the embedder call succeeded), the
caller's non-empty metadata dict is mutated in place: after the call it is
exactly the updated dict, carrying `source_file`, `filename`, `description`,
`category_id` and `vector_collection_name` with the pipeline's values —
whatever the insert stage later does. -/
theorem c10_metadata_inplace_update (env : IngestEnv) (path : String)
    (m : Dict) (s : SessionStats) (chunks : List Chunk) (embeddings : List Nat)
    (hm : m ≠ [])
    (hp : env.process = Except.ok chunks) (hne : chunks ≠ [])
    (he : env.embed = Except.ok embeddings) :
    (ingest_document env path (some m) s).caller_metadata
      = some (doc_metadata_update m (resolve_filename (some m) path)
              (resolved_classification env)) ∧
    dictGet (doc_metadata_update m (resolve_filename (some m) path)
              (resolved_classification env)) "source_file"
      = some (resolve_filename (some m) path) ∧
    dictGet (doc_metadata_update m (resolve_filename (some m) path)
              (resolved_classification env)) "filename"
      = some (resolve_filename (some m) path) ∧
    dictGet (doc_metadata_update m (resolve_filename (some m) path)
              (resolved_classification env)) "description"
      = some (JsonVal.str (resolved_classification env).description) ∧
    dictGet (doc_metadata_update m (resolve_filename (some m) path)
              (resolved_classification env)) "category_id"
      = some (JsonVal.str (resolved_classification env).category_id) ∧
    dictGet (doc_metadata_update m (resolve_filename (some m) path)
              (resolved_classification env)) "vector_collection_name"
      = some (JsonVal.str (resolved_classification env).vector_collection_name) := by
  have hie : chunks.isEmpty = false := by
    cases chunks with
    | nil => exact absurd rfl hne
    | cons a l => rfl
  have hmie : m.isEmpty = false := by
    cases m with
    | nil => exact absurd rfl hm
    | cons a l => rfl
  have hd := dictGet_doc_metadata_update m (resolve_filename (some m) path)
    (resolved_classification env)
  refine ⟨?_, hd.1, hd.2.1, hd.2.2.1, hd.2.2.2.1, hd.2.2.2.2⟩
  simp only [ingest_document, hp, he, hie, hmie, Bool.false_eq_true, if_false,
             Bool.not_false, if_true]
  cases env.bulk with
  | ok u => simp
  | error e => split <;> first | rfl | (split <;> rfl)

/-- The C10 witness environment: a one-chunk document with a successful
bulk insert. -/
def c10_env : IngestEnv :=
  { classify := Except.ok pipeline_default_classification,
    process := Except.ok [{ content := "c", metadata := [] }],
    embed := Except.ok [1],
    bulk := Except.ok (),
    hasSetCollection := false, setCollectionOk := fun _ => true,
    hasAddEmbedding := true, addOk := fun _ => true }

/-- C10 witness: the caller's `{"a": "b"}` dict comes back as the updated
dict carrying the five pipeline keys. -/
theorem c10_metadata_inplace_update_witness :
    (ingest_document c10_env "f.txt"
        (some [("a", JsonVal.str "b")]) ⟨0, 0, 0⟩).caller_metadata
      = some (doc_metadata_update [("a", JsonVal.str "b")]
              (resolve_filename (some [("a", JsonVal.str "b")]) "f.txt")
              (resolved_classification c10_env)) ∧
    dictGet (doc_metadata_update [("a", JsonVal.str "b")]
              (resolve_filename (some [("a", JsonVal.str "b")]) "f.txt")
              (resolved_classification c10_env)) "category_id"
      = some (JsonVal.str (resolved_classification c10_env).category_id) :=
  have h := c10_metadata_inplace_update c10_env "f.txt" [("a", JsonVal.str "b")]
    ⟨0, 0, 0⟩ [{ content := "c", metadata := [] }] [1]
    (List.cons_ne_nil _ _) rfl (List.cons_ne_nil _ _) rfl
  ⟨h.1, h.2.2.2.2.1⟩
